import Mathlib

/-!
Verification of the posture-monitoring engine (src/combined.py, with
src/integration.py as an earlier iteration).

The development shallowly embeds, in order:
* the angle geometry (`distance`, `find_angles`) used by the classifier;
* the posture classifier `analyze_posture` / `get_pose_status`;
* the cadence-driven status tracker (`update_test` state machine);
* the camera start/stop lifecycle flags;
* the ranking report (`generate_report`) and the login `start_test` step.

Machine floats of the source are modelled with exact arithmetic: `ℝ` for the
geometry (which uses `arccos`/`sqrt`) and `ℚ` for times and durations.
-/

set_option maxHeartbeats 1000000

/-- Embeds `np.degrees`: convert radians to degrees, `x * 180 / π`. -/
noncomputable def degrees (x : ℝ) : ℝ := x * 180 / Real.pi

/-- Embeds `distance(v1, v2) = np.sqrt(((v1 - v2)**2).sum())` for 2-D points
(src/combined.py, line 27). -/
noncomputable def distance (v1 v2 : ℝ × ℝ) : ℝ :=
  Real.sqrt ((v1.1 - v2.1) ^ 2 + (v1.2 - v2.2) ^ 2)

/-- `np.dot` on 2-D vectors. -/
def dot (v w : ℝ × ℝ) : ℝ := v.1 * w.1 + v.2 * w.2

/-- Embeds `find_angles(vec1, vec2, vec3)` (src/combined.py, lines 30-53): the angle in
degrees between the vectors `vec1 - vec2` and `vec3 - vec2`, computed as
`arccos(dot / (|vec21| * |vec23|))`; returns `0` if either span vector has zero
length. -/
noncomputable def find_angles (v1 v2 v3 : ℝ × ℝ) : ℝ :=
  if distance v1 v2 = 0 ∨ distance v3 v2 = 0 then 0
  else
    degrees (Real.arccos
      (dot (v1.1 - v2.1, v1.2 - v2.2) (v3.1 - v2.1, v3.2 - v2.2) /
        (distance v1 v2 * distance v3 v2)))

/-- C6: `find_angles` is symmetric under swapping the two outer points, and
returns `0` whenever either span vector (`A - B` or `C - B`) has zero length
(equivalently, the corresponding distance is `0`). -/
theorem find_angles_symm_and_degenerate :
    (∀ A B C : ℝ × ℝ, find_angles A B C = find_angles C B A) ∧
    (∀ A B C : ℝ × ℝ, distance A B = 0 ∨ distance C B = 0 → find_angles A B C = 0) := by
  constructor
  · intro A B C
    unfold find_angles
    by_cases h : distance A B = 0 ∨ distance C B = 0
    · rw [if_pos h, if_pos (Or.symm h)]
    · rw [if_neg h, if_neg fun hc => h (Or.symm hc)]
      have hdot : dot (A.1 - B.1, A.2 - B.2) (C.1 - B.1, C.2 - B.2) =
          dot (C.1 - B.1, C.2 - B.2) (A.1 - B.1, A.2 - B.2) := by
        unfold dot; ring
      rw [hdot, mul_comm (distance A B) (distance C B)]
  · intro A B C h
    unfold find_angles
    rw [if_pos h]

/-- Witness for C6 at a concrete degenerate input: the span vector from
`(0,0)` to `(0,0)` has zero length, so the angle is `0`. -/
theorem find_angles_symm_and_degenerate_witness :
    find_angles (0, 0) (0, 0) (1, 1) = 0 :=
  find_angles_symm_and_degenerate.2 (0, 0) (0, 0) (1, 1)
    (Or.inl (by norm_num [distance, Real.sqrt_zero]))

/-- C9: on every input triple of points, `find_angles` returns a value in the
closed interval `[0, 180]`: the degenerate branch returns `0`, and otherwise
the result is `arccos` of a quotient converted to degrees, which lies in
`[0, 180]` since `arccos` always lands in `[0, π]`. -/
theorem find_angles_mem_Icc (A B C : ℝ × ℝ) :
    0 ≤ find_angles A B C ∧ find_angles A B C ≤ 180 := by
  unfold find_angles
  by_cases h : distance A B = 0 ∨ distance C B = 0
  · rw [if_pos h]; norm_num
  · rw [if_neg h]
    unfold degrees
    set q := dot (A.1 - B.1, A.2 - B.2) (C.1 - B.1, C.2 - B.2) /
      (distance A B * distance C B) with hq
    constructor
    · exact div_nonneg (mul_nonneg (Real.arccos_nonneg q) (by norm_num)) Real.pi_pos.le
    · rw [div_le_iff₀ Real.pi_pos]
      have h1 : Real.arccos q ≤ Real.pi := Real.arccos_le_pi q
      nlinarith [Real.pi_pos]

/-! ### The posture classifier (src/combined.py, lines 132-214) -/

/-- The landmark set extracted from a MediaPipe result: the four named
left-side points used by the classifier, each possibly missing (the source
checks `any(l is None for l in ...)` and may fail while indexing). -/
structure LandmarkSet where
  leftKnee : Option (ℝ × ℝ)
  leftHip : Option (ℝ × ℝ)
  leftShoulder : Option (ℝ × ℝ)
  leftEar : Option (ℝ × ℝ)

/-- A captured frame together with the landmark oracle's output for it
(`results.pose_landmarks`, which may be `None`). -/
structure Frame where
  poseLandmarks : Option LandmarkSet

/-- Embeds `analyze_posture(frame)` (src/combined.py, lines 132-198). Returns `true`
when slouch is detected and `false` for good posture. A missing frame, a
detection with no landmarks, or a failed/missing landmark extraction all
return `false` (good posture). Otherwise the three angle checks run, with the
virtual point `(ear.x, ear.y - 0.1)`. -/
noncomputable def analyze_posture : Option Frame → Bool
  | none => false
  | some f =>
    match f.poseLandmarks with
    | none => false
    | some lm =>
      match lm.leftKnee, lm.leftHip, lm.leftShoulder, lm.leftEar with
      | some leftKnee, some leftHip, some leftShoulder, some leftEar =>
        if (75 ≤ find_angles leftKnee leftHip leftShoulder ∧
              find_angles leftKnee leftHip leftShoulder ≤ 105) ∧
            165 ≤ find_angles leftHip leftShoulder leftEar ∧
            165 ≤ find_angles leftShoulder leftEar (leftEar.1, leftEar.2 - 0.1)
        then false
        else true
      | _, _, _, _ => false

/-- Embeds `get_pose_status()` (src/combined.py, lines 200-214): reads the shared
frame cell; if no frame has ever been published it returns `false` (good
posture), otherwise it analyzes a copy of the latest frame. -/
noncomputable def get_pose_status : Option Frame → Bool
  | none => false
  | some f => analyze_posture (some f)

/-- C2: when all four named landmarks are present, the classifier returns
good posture (`false`) iff the knee-hip-shoulder angle is in `[75, 105]`, the
hip-shoulder-ear angle is at least `165`, and the shoulder-ear-virtualPoint
angle is at least `165`; it returns slouch (`true`) iff some check fails. -/
theorem analyze_posture_good_iff (knee hip shoulder ear : ℝ × ℝ) :
    (analyze_posture (some ⟨some ⟨some knee, some hip, some shoulder, some ear⟩⟩) = false ↔
      (75 ≤ find_angles knee hip shoulder ∧ find_angles knee hip shoulder ≤ 105) ∧
        165 ≤ find_angles hip shoulder ear ∧
        165 ≤ find_angles shoulder ear (ear.1, ear.2 - 0.1)) ∧
    (analyze_posture (some ⟨some ⟨some knee, some hip, some shoulder, some ear⟩⟩) = true ↔
      ¬ ((75 ≤ find_angles knee hip shoulder ∧ find_angles knee hip shoulder ≤ 105) ∧
        165 ≤ find_angles hip shoulder ear ∧
        165 ≤ find_angles shoulder ear (ear.1, ear.2 - 0.1))) := by
  by_cases h : (75 ≤ find_angles knee hip shoulder ∧ find_angles knee hip shoulder ≤ 105) ∧
      165 ≤ find_angles hip shoulder ear ∧
      165 ≤ find_angles shoulder ear (ear.1, ear.2 - 0.1)
  · constructor <;> simp [analyze_posture, h]
  · constructor <;> simp [analyze_posture, h]

/-- Evaluation helper: when both span vectors are nonzero and their dot
product vanishes, `find_angles` returns `90`. -/
theorem find_angles_of_dot_zero (v1 v2 v3 : ℝ × ℝ)
    (h21 : distance v1 v2 ≠ 0) (h23 : distance v3 v2 ≠ 0)
    (hdot : dot (v1.1 - v2.1, v1.2 - v2.2) (v3.1 - v2.1, v3.2 - v2.2) = 0) :
    find_angles v1 v2 v3 = 90 := by
  unfold find_angles
  rw [if_neg (by tauto), hdot, zero_div, Real.arccos_zero]
  unfold degrees
  field_simp
  ring

/-- Evaluation helper: the distance between two points with different second
coordinates is nonzero. -/
theorem distance_ne_zero_of_snd_ne (v1 v2 : ℝ × ℝ) (h : v1.2 ≠ v2.2) :
    distance v1 v2 ≠ 0 := by
  unfold distance
  refine (Real.sqrt_pos.mpr ?_).ne'
  have h0 : v1.2 - v2.2 ≠ 0 := sub_ne_zero.mpr h
  have h2 : (v1.2 - v2.2) ^ 2 > 0 := by positivity
  nlinarith [sq_nonneg (v1.1 - v2.1)]

/-- Evaluation helper: the distance between two points with different first
coordinates is nonzero. -/
theorem distance_ne_zero_of_fst_ne (v1 v2 : ℝ × ℝ) (h : v1.1 ≠ v2.1) :
    distance v1 v2 ≠ 0 := by
  unfold distance
  refine (Real.sqrt_pos.mpr ?_).ne'
  have h0 : v1.1 - v2.1 ≠ 0 := sub_ne_zero.mpr h
  have h2 : (v1.1 - v2.1) ^ 2 > 0 := by positivity
  nlinarith [sq_nonneg (v1.2 - v2.2)]

/-- Concrete slouching configuration: with knee `(1,2)`, hip `(0,2)`,
shoulder `(0,1)`, ear `(1,1)`, all three measured angles are `90`, so the
hip-shoulder-ear check fails and the classifier reports slouch. -/
theorem analyze_posture_slouch_example :
    analyze_posture (some ⟨some ⟨some (1, 2), some (0, 2), some (0, 1), some (1, 1)⟩⟩) =
      true := by
  have hKHS : find_angles ((1 : ℝ), (2 : ℝ)) (0, 2) (0, 1) = 90 := by
    apply find_angles_of_dot_zero
    · exact distance_ne_zero_of_fst_ne _ _ (by norm_num)
    · exact distance_ne_zero_of_snd_ne _ _ (by norm_num)
    · unfold dot; norm_num
  have hHSE : find_angles ((0 : ℝ), (2 : ℝ)) (0, 1) (1, 1) = 90 := by
    apply find_angles_of_dot_zero
    · exact distance_ne_zero_of_snd_ne _ _ (by norm_num)
    · exact distance_ne_zero_of_fst_ne _ _ (by norm_num)
    · unfold dot; norm_num
  have hSEV : find_angles ((0 : ℝ), (1 : ℝ)) (1, 1)
      (((1 : ℝ), (1 : ℝ)).1, ((1 : ℝ), (1 : ℝ)).2 - 0.1) = 90 := by
    apply find_angles_of_dot_zero
    · exact distance_ne_zero_of_fst_ne _ _ (by norm_num)
    · exact distance_ne_zero_of_snd_ne _ _ (by norm_num)
    · unfold dot; norm_num
  simp only [analyze_posture, hKHS, hHSE, hSEV]
  norm_num

/-- C5: the fail-open behavior of posture evaluation. With no frame in the
shared buffer the result is good posture (`false`); likewise when the frame
has no detected landmarks, or when any of the four named landmarks is
missing (extraction/indexing failure). Conversely, a slouch result (`true`)
can only arise from a successful detection of all four landmarks whose
angles violate some threshold. -/
theorem get_pose_status_fail_open :
    get_pose_status none = false ∧
    (∀ f : Frame, f.poseLandmarks = none → get_pose_status (some f) = false) ∧
    (∀ (f : Frame) (lm : LandmarkSet), f.poseLandmarks = some lm →
      (lm.leftKnee = none ∨ lm.leftHip = none ∨ lm.leftShoulder = none ∨
        lm.leftEar = none) →
      get_pose_status (some f) = false) ∧
    (∀ g : Option Frame, get_pose_status g = true →
      ∃ (f : Frame) (lm : LandmarkSet) (knee hip shoulder ear : ℝ × ℝ),
        g = some f ∧ f.poseLandmarks = some lm ∧
        lm.leftKnee = some knee ∧ lm.leftHip = some hip ∧
        lm.leftShoulder = some shoulder ∧ lm.leftEar = some ear ∧
        ¬ ((75 ≤ find_angles knee hip shoulder ∧
              find_angles knee hip shoulder ≤ 105) ∧
            165 ≤ find_angles hip shoulder ear ∧
            165 ≤ find_angles shoulder ear (ear.1, ear.2 - 0.1))) := by
  refine ⟨rfl, ?_, ?_, ?_⟩
  · intro f hf
    obtain ⟨lms⟩ := f
    cases hf
    rfl
  · intro f lm hf hmiss
    obtain ⟨lms⟩ := f
    cases hf
    obtain ⟨k, h, s, e⟩ := lm
    rcases hmiss with hm | hm | hm | hm
    · cases hm; cases h <;> cases s <;> cases e <;> rfl
    · cases hm; cases k <;> cases s <;> cases e <;> rfl
    · cases hm; cases k <;> cases h <;> cases e <;> rfl
    · cases hm; cases k <;> cases h <;> cases s <;> rfl
  · intro g hg
    match g with
    | none => simp [get_pose_status] at hg
    | some ⟨none⟩ => simp [get_pose_status, analyze_posture] at hg
    | some ⟨some ⟨none, h, s, e⟩⟩ =>
      cases h <;> cases s <;> cases e <;> simp [get_pose_status, analyze_posture] at hg
    | some ⟨some ⟨some k, none, s, e⟩⟩ =>
      cases s <;> cases e <;> simp [get_pose_status, analyze_posture] at hg
    | some ⟨some ⟨some k, some h, none, e⟩⟩ =>
      cases e <;> simp [get_pose_status, analyze_posture] at hg
    | some ⟨some ⟨some k, some h, some s, none⟩⟩ =>
      simp [get_pose_status, analyze_posture] at hg
    | some ⟨some ⟨some k, some h, some s, some e⟩⟩ =>
      refine ⟨_, _, k, h, s, e, rfl, rfl, rfl, rfl, rfl, rfl, ?_⟩
      intro hc
      have : get_pose_status (some ⟨some ⟨some k, some h, some s, some e⟩⟩) = false := by
        simp [get_pose_status, analyze_posture, hc]
      rw [this] at hg
      exact Bool.false_ne_true hg

/-- Witness for C5: the fail-open cases evaluated at concrete inputs (a frame
with no landmark detection, a landmark set missing the knee), and the
only-if direction applied to the concrete slouching configuration. -/
theorem get_pose_status_fail_open_witness :
    get_pose_status (some ⟨none⟩) = false ∧
    get_pose_status (some ⟨some ⟨none, some (0, 0), some (0, 0), some (0, 0)⟩⟩) = false ∧
    ∃ (f : Frame) (lm : LandmarkSet) (knee hip shoulder ear : ℝ × ℝ),
      (some (Frame.mk (some ⟨some (1, 2), some (0, 2), some (0, 1), some (1, 1)⟩)) =
          some f) ∧ f.poseLandmarks = some lm ∧
        lm.leftKnee = some knee ∧ lm.leftHip = some hip ∧
        lm.leftShoulder = some shoulder ∧ lm.leftEar = some ear ∧
        ¬ ((75 ≤ find_angles knee hip shoulder ∧
              find_angles knee hip shoulder ≤ 105) ∧
            165 ≤ find_angles hip shoulder ear ∧
            165 ≤ find_angles shoulder ear (ear.1, ear.2 - 0.1)) :=
  ⟨get_pose_status_fail_open.2.1 ⟨none⟩ rfl,
   get_pose_status_fail_open.2.2.1 ⟨some ⟨none, some (0, 0), some (0, 0), some (0, 0)⟩⟩
     ⟨none, some (0, 0), some (0, 0), some (0, 0)⟩ rfl (Or.inl rfl),
   get_pose_status_fail_open.2.2.2
     (some ⟨some ⟨some (1, 2), some (0, 2), some (0, 1), some (1, 1)⟩⟩)
     analyze_posture_slouch_example⟩

/-! ### The status tracker (src/combined.py, lines 334-445)

`update_test` runs on a fixed cadence. Wall-clock times and durations are
modelled exactly in `ℚ`. Each tick is a pair `(slouch_detected, now)`: the
boolean returned by `get_pose_status` and the value of `time.time()`. -/

/-- The two posture statuses the tracker distinguishes (the source uses the
strings "Good Posture" and "Slouch Detected"). -/
inductive PostureStatus where
  | goodPosture
  | slouchDetected
deriving DecidableEq, Repr

/-- Embeds `current_status = "Slouch Detected" if slouch_detected else "Good Posture"`. -/
def statusOf (slouch_detected : Bool) : PostureStatus :=
  if slouch_detected then .slouchDetected else .goodPosture

/-- A row inserted into the `posture_log` table by `insert_into_db`
(src/combined.py, lines 436-445): the wall-clock timestamp at insertion, the
closing status and the duration it was held. The username column is fixed
per session and omitted. -/
structure PostureRecord where
  timestamp : ℚ
  status : PostureStatus
  duration : ℚ
deriving DecidableEq, Repr

/-- The tracker's in-memory state plus the database log
(src/combined.py, lines 334-339). -/
structure TrackerState where
  last_status : Option PostureStatus
  last_status_change_time : ℚ
  good_posture_time : ℚ
  slouch_time : ℚ
  db : List PostureRecord
deriving DecidableEq, Repr

/-- The state set up in `create_test_ui` (src/combined.py, lines 334-339):
no last status, both accumulators zero, and `last_status_change_time` set to
the session start time. -/
def initState (t0 : ℚ) : TrackerState :=
  { last_status := none
    last_status_change_time := t0
    good_posture_time := 0
    slouch_time := 0
    db := [] }

/-- One cadence tick of `update_test` (src/combined.py, lines 385-423):
compute the current status from the detector boolean; `duration` is
`now - last_status_change_time`; if a last status exists, add `duration` to
its accumulator; if the status changed, insert a record closing the prior
interval (skipped when there is no prior status) and update `last_status`
and `last_status_change_time`. -/
def update_test (s : TrackerState) (slouch_detected : Bool) (now : ℚ) : TrackerState :=
  let current_status := statusOf slouch_detected
  let duration := now - s.last_status_change_time
  let s1 :=
    match s.last_status with
    | none => s
    | some PostureStatus.goodPosture =>
        { s with good_posture_time := s.good_posture_time + duration }
    | some PostureStatus.slouchDetected =>
        { s with slouch_time := s.slouch_time + duration }
  if some current_status ≠ s.last_status then
    { s1 with
      db :=
        match s.last_status with
        | none => s1.db
        | some prev => s1.db ++ [⟨now, prev, duration⟩]
      last_status := some current_status
      last_status_change_time := now }
  else s1

/-- Run the tracker over a whole sequence of cadence ticks. -/
def runTicks (s : TrackerState) : List (Bool × ℚ) → TrackerState
  | [] => s
  | (b, now) :: rest => runTicks (update_test s b now) rest

/-- C1 (code evaluation at the failing input): three cadence ticks at times
`0, 1, 2`, all reporting good posture, starting from a session begun at time
`0`. The accumulated `good_posture_time + slouch_time` is `3`, while the
wall-clock time elapsed since session start is `2`: `update_test` adds
`now - last_status_change_time` on every tick but resets
`last_status_change_time` only when the status changes, so unchanged
stretches are overcounted. -/
theorem accounting_identity_fails :
    (runTicks (initState 0) [(false, 0), (false, 1), (false, 2)]).good_posture_time +
        (runTicks (initState 0) [(false, 0), (false, 1), (false, 2)]).slouch_time = 3 ∧
      (3 : ℚ) ≠ 2 - 0 := by
  constructor
  · simp [runTicks, update_test, initState, statusOf]
    norm_num
  · norm_num

/-- Step fact: on the first tick (no prior status) nothing is inserted into
the database; the status is set and the change time becomes `now`. -/
theorem update_test_of_none (s : TrackerState) (b : Bool) (now : ℚ)
    (h : s.last_status = none) :
    (update_test s b now).db = s.db ∧
      (update_test s b now).last_status = some (statusOf b) ∧
      (update_test s b now).last_status_change_time = now := by
  simp [update_test, h]

/-- Step fact: a tick that observes the same status inserts nothing and
leaves `last_status` and `last_status_change_time` unchanged. -/
theorem update_test_of_same (s : TrackerState) (b : Bool) (now : ℚ)
    (h : s.last_status = some (statusOf b)) :
    (update_test s b now).db = s.db ∧
      (update_test s b now).last_status = s.last_status ∧
      (update_test s b now).last_status_change_time = s.last_status_change_time := by
  cases hsb : statusOf b <;> simp [update_test, h, hsb]

/-- Step fact: a tick that observes a different status inserts exactly one
record, closing the prior interval with duration
`now - last_status_change_time`, then updates `last_status` and
`last_status_change_time`. -/
theorem update_test_of_change (s : TrackerState) (b : Bool) (now : ℚ)
    (cur : PostureStatus) (h : s.last_status = some cur) (hne : statusOf b ≠ cur) :
    (update_test s b now).db =
        s.db ++ [⟨now, cur, now - s.last_status_change_time⟩] ∧
      (update_test s b now).last_status = some (statusOf b) ∧
      (update_test s b now).last_status_change_time = now := by
  cases cur <;> cases hsb : statusOf b <;> rw [hsb] at hne <;>
    simp_all [update_test, h, hsb]

/-- Modelled after the spec's transition rule (spec §4.4, step 5): the list
of transition records that a tick sequence should produce, given the current
status and the time it was entered. A tick with an unchanged status emits
nothing; a changed status emits one record closing the prior interval. -/
def specTransitionLog : PostureStatus → ℚ → List (Bool × ℚ) → List PostureRecord
  | _, _, [] => []
  | cur, t, (b, now) :: rest =>
    if statusOf b = cur then specTransitionLog cur t rest
    else ⟨now, cur, now - t⟩ :: specTransitionLog (statusOf b) now rest

/-- The records a whole session should produce: the first tick only
initializes the status (no record), later ticks follow `specTransitionLog`. -/
def specLogOfTicks : List (Bool × ℚ) → List PostureRecord
  | [] => []
  | (b, now) :: rest => specTransitionLog (statusOf b) now rest

/-- Generalized invariant for C3: from any state with a known status and
change time, running the remaining ticks appends exactly the spec's
transition records. -/
theorem runTicks_db_append (ticks : List (Bool × ℚ)) :
    ∀ (s : TrackerState) (cur : PostureStatus), s.last_status = some cur →
      (runTicks s ticks).db =
        s.db ++ specTransitionLog cur s.last_status_change_time ticks := by
  induction ticks with
  | nil => intro s cur h; simp [runTicks, specTransitionLog]
  | cons head rest ih =>
    obtain ⟨b, now⟩ := head
    intro s cur h
    by_cases hsb : statusOf b = cur
    · have hsame := update_test_of_same s b now (by rw [h, hsb])
      have hlast : (update_test s b now).last_status = some cur := by
        rw [hsame.2.1, h]
      rw [runTicks, ih (update_test s b now) cur hlast, hsame.1, hsame.2.2,
        specTransitionLog, if_pos hsb]
    · have hch := update_test_of_change s b now cur h hsb
      rw [runTicks, ih (update_test s b now) (statusOf b) hch.2.1, hch.1,
        hch.2.2, specTransitionLog, if_neg hsb, List.append_assoc]
      rfl

/-- C3: for every session start time and every sequence of cadence ticks,
the database log produced by the tracker is exactly the spec's transition
log: one record per status change, closing the prior interval with duration
`now` minus the time of the previous status change, and no record for the
first tick (no prior status). -/
theorem runTicks_db_eq_specLog (t0 : ℚ) (ticks : List (Bool × ℚ)) :
    (runTicks (initState t0) ticks).db = specLogOfTicks ticks := by
  cases ticks with
  | nil => rfl
  | cons head rest =>
    obtain ⟨b, now⟩ := head
    have h0 := update_test_of_none (initState t0) b now rfl
    rw [runTicks, runTicks_db_append rest (update_test (initState t0) b now)
      (statusOf b) h0.2.1, h0.1, h0.2.2]
    rfl

/-! ### Camera lifecycle (src/combined.py, lines 55-130) -/

/-- The global camera state: the `camera_active` flag, whether a
`webcam_thread` object exists, and whether the capture device has been
released (`cap.release()` runs when the capture loop exits). -/
structure CameraState where
  camera_active : Bool
  webcam_thread : Bool
  released : Bool
deriving DecidableEq, Repr

/-- The tail of `camera_thread_function` (src/combined.py, lines 75-106): the
capture loop runs `while camera_active`; once the flag is false the loop
exits and the device is released. -/
def camera_loop_exit (s : CameraState) : CameraState :=
  if s.camera_active then s else { s with released := true }

/-- Embeds `stop_camera()` (src/combined.py, lines 122-130): if the camera is
active, clear the flag and, when a thread exists, join it — the loop observes
the cleared flag, exits and releases the device. If the camera is already
inactive, nothing happens. -/
def stop_camera (s : CameraState) : CameraState :=
  if s.camera_active then
    let s1 : CameraState := { s with camera_active := false }
    if s1.webcam_thread then camera_loop_exit s1 else s1
  else s

/-- C8: `stop_camera` is idempotent — the second of two successive calls is a
no-op since the `camera_active` flag is already false — and when called on an
active camera with a live thread, the first call clears the flag and leaves
the device released. -/
theorem stop_camera_idempotent :
    (∀ s : CameraState, stop_camera (stop_camera s) = stop_camera s) ∧
    (∀ s : CameraState, s.camera_active = true → s.webcam_thread = true →
      (stop_camera s).camera_active = false ∧ (stop_camera s).released = true) := by
  constructor
  · intro s
    obtain ⟨a, t, r⟩ := s
    cases a <;> cases t <;> cases r <;> rfl
  · intro s ha ht
    obtain ⟨a, t, r⟩ := s
    cases ha
    cases ht
    cases r <;> exact ⟨rfl, rfl⟩

/-- Witness for C8 at the state of a freshly started camera: active flag set,
thread live, device not yet released. -/
theorem stop_camera_idempotent_witness :
    stop_camera (stop_camera ⟨true, true, false⟩) = stop_camera ⟨true, true, false⟩ ∧
      (stop_camera ⟨true, true, false⟩).camera_active = false ∧
      (stop_camera ⟨true, true, false⟩).released = true :=
  ⟨stop_camera_idempotent.1 ⟨true, true, false⟩,
   stop_camera_idempotent.2 ⟨true, true, false⟩ rfl rfl⟩

/-! ### The ranking report (src/combined.py, lines 452-517) -/

/-- The per-user score from `generate_report` (src/combined.py, line 477):
`ratio = (good_time / total_time * 100) if total_time > 0 else 0`. -/
def ratio (good_time total_time : ℚ) : ℚ :=
  if 0 < total_time then good_time / total_time * 100 else 0

/-- Map the aggregated rows `(username, good_time, total_time)` to
`(username, ratio)` pairs, as in src/combined.py lines 475-478. -/
def userScores (user_data : List (String × ℚ × ℚ)) : List (String × ℚ) :=
  user_data.map fun r => (r.1, ratio r.2.1 r.2.2)

/-- Python's `list.sort(key=..., reverse=True)` is a stable descending sort;
`List.insertionSort` with this relation places a row before the first row of
strictly smaller ratio, which is the same stable descending order. -/
def sortScores (l : List (String × ℚ)) : List (String × ℚ) :=
  List.insertionSort (fun a b => b.2 ≤ a.2) l

instance : IsTotal (String × ℚ) (fun a b => b.2 ≤ a.2) :=
  ⟨fun a b => le_total b.2 a.2⟩

instance : IsTrans (String × ℚ) (fun a b => b.2 ≤ a.2) :=
  ⟨fun _ _ _ h1 h2 => le_trans h2 h1⟩

/-- The 1-indexed rank of the first row whose username matches, as computed
by the `enumerate(user_scores, start=1)` loop with `break`
(src/combined.py, lines 484-490); `none` when the user has no row. -/
def rankOf (username : String) : List (String × ℚ) → Option Nat
  | [] => none
  | (u, _) :: rest =>
    if u = username then some 1 else (rankOf username rest).map fun k => k + 1

/-- Embeds `generate_report` (src/combined.py, lines 452-497), reduced to the data
it computes: from the aggregated rows, build the ratio scores, sort them
descending, find the current user's 1-indexed rank and return the ranking
percentile `((total_users - rank + 1) / total_users) * 100`. Returns `none`
when there are no rows or the user has none ("No data..." log branches). -/
def generate_report (username : String) (user_data : List (String × ℚ × ℚ)) : Option ℚ :=
  if user_data = [] then none
  else
    match rankOf username (sortScores (userScores user_data)) with
    | none => none
    | some rank =>
      some (((sortScores (userScores user_data)).length - (rank : ℚ) + 1) /
          ((sortScores (userScores user_data)).length : ℚ) * 100)

/-- The example aggregates of C4: users A (good=80, total=100),
B (good=30, total=100), C (good=50, total=100). -/
def exampleAggregates : List (String × ℚ × ℚ) :=
  [("A", 80, 100), ("B", 30, 100), ("C", 50, 100)]

/-- C4: the ranking sorts users descending by ratio, and the reported
percentile is `((total_users - rank + 1) / total_users) * 100` with `rank`
the 1-indexed position in that order. On the example aggregates the order is
A, C, B; B's percentile is `((3 - 3 + 1) / 3) * 100 = 100 / 3` (displayed as
33.33) and A's is 100. -/
theorem generate_report_ranking :
    (∀ user_data : List (String × ℚ × ℚ),
      List.Sorted (fun a b : String × ℚ => b.2 ≤ a.2)
        (sortScores (userScores user_data))) ∧
    (∀ (username : String) (user_data : List (String × ℚ × ℚ)) (rank : Nat),
      user_data ≠ [] →
      rankOf username (sortScores (userScores user_data)) = some rank →
      generate_report username user_data =
        some (((sortScores (userScores user_data)).length - (rank : ℚ) + 1) /
            ((sortScores (userScores user_data)).length : ℚ) * 100)) ∧
    sortScores (userScores exampleAggregates) = [("A", 80), ("C", 50), ("B", 30)] ∧
    generate_report "B" exampleAggregates = some (100 / 3) ∧
    generate_report "A" exampleAggregates = some 100 := by
  refine ⟨?_, ?_, ?_, ?_, ?_⟩
  · intro user_data
    exact List.sorted_insertionSort (fun a b => b.2 ≤ a.2) (userScores user_data)
  · intro username user_data rank hne hrank
    rw [generate_report, if_neg hne, hrank]
  · norm_num [sortScores, userScores, exampleAggregates, ratio,
      List.insertionSort, List.orderedInsert]
  · simp [generate_report, rankOf, sortScores, userScores, exampleAggregates, ratio,
      List.insertionSort, List.orderedInsert]
    norm_num
  · simp [generate_report, rankOf, sortScores, userScores, exampleAggregates, ratio,
      List.insertionSort, List.orderedInsert]
    norm_num

/-- Witness for C4's general clause at the example: B occupies rank 3 of 3,
so the formula yields `((3 - 3 + 1) / 3) * 100`. -/
theorem generate_report_ranking_witness :
    generate_report "B" exampleAggregates =
      some (((sortScores (userScores exampleAggregates)).length - ((3 : Nat) : ℚ) + 1) /
          ((sortScores (userScores exampleAggregates)).length : ℚ) * 100) :=
  generate_report_ranking.2.1 "B" exampleAggregates 3 (by decide)
    (by simp [rankOf, sortScores, userScores, exampleAggregates, ratio,
      List.insertionSort, List.orderedInsert])

/-- C7 counterexample: the score computed by `generate_report` is not
`goodTime / totalTime` — the source multiplies by 100 (a percentage), so for
`good = 1, total = 2` the code yields `50`, not `1/2`; and for a negative
total the guard `total_time > 0` (not `≠ 0`) makes the code yield `0`, not
the quotient. -/
theorem ratio_ne_plain_quotient :
    ratio 1 2 ≠ 1 / 2 ∧ ratio 1 (-1) ≠ 1 / (-1) := by
  constructor <;> norm_num [ratio]

/-- C7 (amended): the per-user score used for ranking equals
`(goodTime / totalTime) * 100` whenever `totalTime` is positive — in which
case the denominator is nonzero, so the division is guarded — and equals `0`
whenever `totalTime` is not positive (in particular when it is `0`). -/
theorem ratio_guarded (good_time total_time : ℚ) :
    (0 < total_time →
      ratio good_time total_time = good_time / total_time * 100 ∧ total_time ≠ 0) ∧
    (total_time ≤ 0 → ratio good_time total_time = 0) := by
  constructor
  · intro h
    exact ⟨by rw [ratio, if_pos h], ne_of_gt h⟩
  · intro h
    rw [ratio, if_neg (not_lt.mpr h)]

/-- Witness for C7's amended claim at `good = 1` with `total = 2` (positive)
and `total = 0` (the zero-denominator row). -/
theorem ratio_guarded_witness :
    (ratio 1 2 = 1 / 2 * 100 ∧ (2 : ℚ) ≠ 0) ∧ ratio 1 0 = 0 :=
  ⟨(ratio_guarded 1 2).1 (by norm_num), (ratio_guarded 1 0).2 (by norm_num)⟩

/-! ### Login (src/combined.py, lines 252-271; src/integration.py, lines 38-54) -/

/-- Python's `str.strip()`: remove leading and trailing whitespace. -/
def pyStrip (s : String) : String :=
  String.mk (((s.toList.dropWhile Char.isWhitespace).reverse.dropWhile
    Char.isWhitespace).reverse)

/-- The login state: the username selected at login (if any) and whether the
test session UI has been started. -/
structure LoginState where
  username : Option String
  testStarted : Bool
deriving DecidableEq, Repr

/-- Embeds `start_test` of the final iteration (src/combined.py, lines 252-271): the
entered username is stripped; if it is empty a warning is shown and nothing
changes; otherwise the duplicate count is queried but the rejection is
commented out, so the username is accepted unconditionally and the test UI
starts. `db` is the list of usernames present in the `posture_log` table. -/
def start_test (db : List String) (entered : String) (st : LoginState) : LoginState :=
  let entered_username := pyStrip entered
  if entered_username = "" then st
  else { username := some entered_username, testStarted := true }

/-- C10: in the final iteration a non-blank username starts the session even
when it already exists in `posture_log` (duplicate rejection disabled), while
a blank (empty or whitespace-only) username leaves the login state unchanged
and does not start the session. -/
theorem start_test_duplicates_allowed (db : List String) (entered : String)
    (st : LoginState) :
    (pyStrip entered ≠ "" →
      start_test db entered st =
        { username := some (pyStrip entered), testStarted := true }) ∧
    (pyStrip entered = "" → start_test db entered st = st) := by
  constructor
  · intro h
    rw [start_test, if_neg h]
  · intro h
    rw [start_test, if_pos h]

/-- Witness for C10: the username "alice" is already in the table yet the
session starts, and the whitespace-only entry "  " changes nothing. -/
theorem start_test_duplicates_allowed_witness :
    ("alice" ∈ ["alice"] ∧
      start_test ["alice"] "alice" ⟨none, false⟩ =
        { username := some "alice", testStarted := true }) ∧
    start_test ["alice"] "  " ⟨none, false⟩ = ⟨none, false⟩ :=
  ⟨⟨List.mem_singleton.mpr rfl,
    (start_test_duplicates_allowed ["alice"] "alice" ⟨none, false⟩).1 (by decide)⟩,
   (start_test_duplicates_allowed ["alice"] "  " ⟨none, false⟩).2 (by decide)⟩
